import Mathlib

/-!
Verification development for the Minimalagent interview-evaluation pipeline.

The definitions below are a shallow embedding of the Python sources:

* `src/interview/evaluator/interview.py`  — the interview domain model
  (`Candidate`, `Job`, `Rubric`, `TranscriptEntry`, `TranscriptData`,
  `QuestionAnswer`, `EvaluationMaterials`, `Interview`);
* `src/interview/evaluator/helpers.py`    — `EvaluationHelper.run_full_evaluation`,
  the multi-provider aggregation and recommendation policy, together with the
  `RealLLMEvaluator` constructor and the attribute surface of
  `InterviewConfig` (`src/interview/config.py`) it reads;
* `src/background_evaluator.py`           — the queue dispatcher
  (`_create_interview_from_payload`, `_run_llm_evaluation`,
  `_store_evaluation_results`);
* `src/interview/context_service/services.py` — `TranscriptService.write_transcript`
  and `EvaluationService.write_evaluation`;
* `src/interview/tools/interview_tools.py` — `clean_context_and_summarize`.

Modelling conventions: Python dictionaries with optional keys become structures
of `Option` fields (a `dict.get(k, default)` call becomes `Option.getD`);
Python truthiness of a string is `s = ""` versus `s ≠ ""`, of a list
emptiness, and of an optional dict `Option.isNone`; numbers are embedded as
`ℚ` (Python floats are used only for small exact decimal arithmetic here);
external I/O (LLM provider calls, the record store, `asyncio.gather`) is
modelled by passing each call outcome or the store state explicitly; wall
clock timestamps (`created_at`, `updated_at`, `evaluated_at`) carry no
program logic and are not modelled.
-/

namespace Minimalagent

/-! ### Python string helpers -/

/-- Characters that Python `str.title()` treats as cased, restricted to the
ASCII range actually used by the repository (`"interviewer"`, `"candidate"`). -/
def pyIsCased (c : Char) : Bool :=
  (Char.ofNat 97 ≤ c && c ≤ Char.ofNat 122) || (Char.ofNat 65 ≤ c && c ≤ Char.ofNat 90)

/-- Worker for `pyTitle`: the Boolean records whether the previous character
was cased (inside a word). -/
def pyTitleAux : List Char → Bool → List Char
  | [], _ => []
  | c :: cs, prevCased =>
    if pyIsCased c then
      (if prevCased then c.toLower else c.toUpper) :: pyTitleAux cs true
    else
      c :: pyTitleAux cs false

/-- Python `str.title()`: each word starts uppercase, the rest is lowercased. -/
def pyTitle (s : String) : String := String.mk (pyTitleAux s.data false)

/-- The ASCII apostrophe, written via its code point. -/
def apos : String := String.singleton (Char.ofNat 39)

/-! ### Candidate (interview.py lines 11-30) -/

/-- Candidate information; the constructor stores the original names privately
and always sets the public pair to the anonymized placeholder. -/
structure Candidate where
  original_first_name : String
  original_last_name : String
  first_name : String
  last_name : String
deriving DecidableEq

/-- Embeds `Candidate.__init__`: keeps the originals transiently and always
anonymizes the exported pair for bias reduction. -/
def Candidate.make (first_name last_name : String) : Candidate :=
  { original_first_name := first_name
    original_last_name := last_name
    first_name := "Candidate"
    last_name := "A" }

/-- Embeds `Candidate.to_dict`: the exported `first_name`/`last_name` pair. -/
def Candidate.to_dict (c : Candidate) : String × String :=
  (c.first_name, c.last_name)

/-- Embeds `Candidate.from_dict`: missing name parts default to `"Unknown"`. -/
def Candidate.from_dict (first_name last_name : Option String) : Candidate :=
  Candidate.make (first_name.getD "Unknown") (last_name.getD "Unknown")

/-! ### Job, Rubric, transcript, Q&A, materials (interview.py lines 33-154) -/

/-- Job information. -/
structure Job where
  title : String
  description : String
deriving DecidableEq

/-- Evaluation rubric; `criteria` is the criterion-name to guidance mapping. -/
structure Rubric where
  name : String
  version : Int
  criteria : List (String × String)
deriving DecidableEq

/-- Payload view of a rubric dict, one `Option` per key read by `Rubric.from_dict`. -/
structure RubricPayload where
  name : Option String
  version : Option Int
  criteria : Option (List (String × String))
deriving DecidableEq

/-- Embeds `Rubric.from_dict` with its per-key defaults. -/
def Rubric.from_dict (d : RubricPayload) : Rubric :=
  { name := d.name.getD ""
    version := d.version.getD 1
    criteria := d.criteria.getD [] }

/-- Single entry of the structured transcript. -/
structure TranscriptEntry where
  speaker : String
  text : String
deriving DecidableEq

/-- Transcript in both representations: the derived full text and the
ordered structured entries. -/
structure TranscriptData where
  full_text_transcript : String
  structured_transcript : List TranscriptEntry
deriving DecidableEq

/-- Question/answer pair with the grading anchor. -/
structure QuestionAnswer where
  position : Int
  question_text : String
  ideal_answer : String
deriving DecidableEq

/-- Evaluator prompt plus rubric. -/
structure EvaluationMaterials where
  evaluator_prompt : String
  rubric : Rubric
deriving DecidableEq

/-! ### Transcript rendering (interview.py lines 271-276 and 573-585)

The full-text form of one entry is the f-string
`f"**{entry.speaker.title()}:** \x27{entry.text}\x27"` and entries are joined
with the separator `"\n\n"`. -/

/-- Renders one transcript entry the way both `_default_transcript_data` and
`add_transcript_entry` format it. -/
def renderEntry (e : TranscriptEntry) : String :=
  "**" ++ pyTitle e.speaker ++ ":** " ++ apos ++ e.text ++ apos

/-- Joins rendered entries with the `"\n\n"` separator (Python `"\n\n".join`). -/
def joinRendered : List TranscriptEntry → String
  | [] => ""
  | [e] => renderEntry e
  | e :: e2 :: es => renderEntry e ++ "\n\n" ++ joinRendered (e2 :: es)

/-- The round-trip invariant of §3: the stored full text equals the join of
the structured entries under the fixed rendering. -/
def TranscriptData.consistent (td : TranscriptData) : Prop :=
  td.full_text_transcript = joinRendered td.structured_transcript

instance (td : TranscriptData) : Decidable td.consistent := by
  unfold TranscriptData.consistent; infer_instance

/-! ### Evaluation documents returned by providers

A provider's parsed reply is an arbitrary JSON dict.  The aggregation code
only inspects its `"overall_score"` key and whether that value is numeric;
everything else rides along opaquely (`raw`). -/

/-- JSON value as seen by the `isinstance(result["overall_score"], (int, float))`
check: either a number or some non-numeric value. -/
inductive JVal where
  | num (q : ℚ)
  | notNum
deriving DecidableEq

/-- Dict returned by one provider call: the optional `"overall_score"` key and
the rest of the payload kept opaque. -/
structure EvalDoc where
  overall_score : Option JVal
  raw : String
deriving DecidableEq

/-! ### Interview aggregate (interview.py lines 157-295) -/

/-- Interview aggregate root.  `questions_answers` mirrors the stray attribute
set by `_create_interview_from_payload` (which assigns
`interview.questions_answers`, not `questions_and_answers`).  The
`evaluation_1/2/3` slots are nullable per-provider results. -/
structure Interview where
  interview_id : String
  candidate : Candidate
  job : Job
  evaluation_materials : EvaluationMaterials
  transcript_data : TranscriptData
  questions_and_answers : List QuestionAnswer
  questions_answers : List QuestionAnswer
  evaluation_1 : Option EvalDoc
  evaluation_2 : Option EvalDoc
  evaluation_3 : Option EvalDoc
deriving DecidableEq

/-- Embeds `Interview._default_candidate`. -/
def defaultCandidate : Candidate := Candidate.make "John" "Smith"

/-- Embeds `Interview._default_job`. -/
def defaultJob : Job :=
  { title := "Senior Software Engineer"
    description :=
      "We are looking for a Senior Software Engineer with 5+ years of experience " ++
      "in Python development. The ideal candidate will have a strong background " ++
      "in building scalable web applications, working with cloud services (AWS/GCP), " ++
      "and experience with containerization technologies like Docker. " ++
      "Responsibilities include designing and implementing new features, mentoring " ++
      "junior engineers, and contributing to a collaborative team environment." }

/-- Embeds `Interview._default_evaluation_materials`. -/
def defaultEvaluationMaterials : EvaluationMaterials :=
  { evaluator_prompt :=
      "You are an expert technical recruiter and hiring manager. " ++
      "Your task is to evaluate the provided interview transcript based on the " ++
      "job description and the rubric. Provide a detailed, constructive, and " ++
      "unbiased evaluation. Assess the candidate\x27s technical skills, " ++
      "communication abilities, and overall fit for the role. " ++
      "Provide scores for each category in the rubric and a final summary."
    rubric :=
      { name := "Technical Interview Rubric"
        version := 1
        criteria :=
          [("technical_proficiency",
            "Understanding of core concepts, problem-solving approach, code quality and efficiency (1-10)"),
           ("communication_skills",
            "Clarity of explanations, ability to articulate thought process, professionalism (1-10)"),
           ("cultural_fit",
            "Alignment with company values, enthusiasm for the role, collaboration mindset (1-10)")] } }

/-- The four entries of `Interview._default_transcript_data`. -/
def defaultTranscriptEntries : List TranscriptEntry :=
  [⟨"interviewer",
    "Hi, thanks for joining. Can you start by telling me about a challenging project you\x27ve worked on?"⟩,
   ⟨"candidate",
    "Sure. In my last role, I was tasked with refactoring a monolithic legacy service into a microservices architecture. The main challenge was ensuring zero downtime during the migration. We used a strangler fig pattern to gradually move traffic to the new services. It was complex but ultimately successful."⟩,
   ⟨"interviewer",
    "That sounds interesting. How would you handle a disagreement with a colleague about a technical implementation?"⟩,
   ⟨"candidate",
    "I believe in open communication. I\x27d first listen to their perspective to fully understand their reasoning. Then, I would present my viewpoint with supporting data or examples. The goal is to find the best solution for the project, not to \x27win\x27 an argument. If we still can\x27t agree, we could involve a third party, like a tech lead, for a final decision."⟩]

/-- Embeds `Interview._default_transcript_data`: the full text is computed by
joining the rendered entries, exactly as the source list comprehension does. -/
def defaultTranscriptData : TranscriptData :=
  { full_text_transcript := joinRendered defaultTranscriptEntries
    structured_transcript := defaultTranscriptEntries }

/-- Embeds `Interview._default_questions_and_answers`. -/
def defaultQuestionsAndAnswers : List QuestionAnswer :=
  [{ position := 1
     question_text := "Can you tell me about a challenging project you\x27ve worked on?"
     ideal_answer :=
       "Should demonstrate problem-solving skills, technical depth, and ability to handle complexity. Look for specific examples, challenges faced, solutions implemented, and outcomes achieved." },
   { position := 2
     question_text := "How would you handle a disagreement with a colleague about a technical implementation?"
     ideal_answer :=
       "Should show emotional intelligence, communication skills, and collaborative approach. Look for listening skills, data-driven decision making, and escalation strategies." }]

/-- Embeds `Interview.__init__`.  Every argument is optional; `freshId` stands
for the `str(uuid.uuid4())` drawn when `interview_id` is falsy (absent or the
empty string).  A supplied-but-empty question list is falsy in Python and
therefore also falls back to the default, matching
`questions_and_answers or self._default_questions_and_answers()`. -/
def Interview.make (freshId : String)
    (interview_id : Option String)
    (candidate : Option Candidate)
    (job : Option Job)
    (evaluation_materials : Option EvaluationMaterials)
    (transcript_data : Option TranscriptData)
    (questions_and_answers : Option (List QuestionAnswer)) : Interview :=
  { interview_id :=
      match interview_id with
      | some s => if s = "" then freshId else s
      | none => freshId
    candidate := candidate.getD defaultCandidate
    job := job.getD defaultJob
    evaluation_materials := evaluation_materials.getD defaultEvaluationMaterials
    transcript_data := transcript_data.getD defaultTranscriptData
    questions_and_answers :=
      match questions_and_answers with
      | some qas => if qas = [] then defaultQuestionsAndAnswers else qas
      | none => defaultQuestionsAndAnswers
    questions_answers := []
    evaluation_1 := none
    evaluation_2 := none
    evaluation_3 := none }

/-- Embeds `TranscriptData`-level effect of `Interview.add_transcript_entry`:
append the entry and extend the full text, with the separator only when the
full text was non-empty (Python truthiness of the string). -/
def TranscriptData.add_entry (td : TranscriptData) (speaker text : String) :
    TranscriptData :=
  let entry : TranscriptEntry := { speaker := speaker, text := text }
  let new_entry_text := renderEntry entry
  { structured_transcript := td.structured_transcript ++ [entry]
    full_text_transcript :=
      if td.full_text_transcript = "" then new_entry_text
      else td.full_text_transcript ++ ("\n\n" ++ new_entry_text) }

/-- Embeds `Interview.add_transcript_entry` (the `update_timestamp` call only
touches the unmodelled wall clock). -/
def Interview.add_transcript_entry (iv : Interview) (speaker text : String) :
    Interview :=
  { iv with transcript_data := iv.transcript_data.add_entry speaker text }

/-! ### Queue payload shapes (background_evaluator.py lines 138-242)

Each structure field corresponds to one `payload.get(...)` access in
`_create_interview_from_payload`; a `none` models a missing key (or, where
the code tests truthiness of a sub-dict, a missing-or-empty dict). -/

/-- The `payload["candidate"]` sub-dict. -/
structure PayloadCandidate where
  first_name : Option String
  last_name : Option String
deriving DecidableEq

/-- The `payload["job"]` sub-dict. -/
structure PayloadJob where
  title : Option String
  description : Option String
deriving DecidableEq

/-- One dict element of `structured_transcript` (non-dict elements are skipped
by the `isinstance` guard and are not modelled). -/
structure PayloadEntry where
  speaker : Option String
  text : Option String
deriving DecidableEq

/-- The `payload["transcript_data"]` sub-dict. -/
structure PayloadTranscript where
  full_text_transcript : Option String
  structured_transcript : List PayloadEntry
deriving DecidableEq

/-- The `payload["evaluation_materials"]` sub-dict.  `rubric = none` models a
missing or empty (falsy) rubric dict, which triggers the fallback rubric. -/
structure PayloadEvalMaterials where
  rubric : Option RubricPayload
  evaluator_prompt : Option String
deriving DecidableEq

/-- One dict element of `questions_and_answers`. -/
structure PayloadQA where
  position : Option Int
  question_text : Option String
  ideal_answer : Option String
deriving DecidableEq

/-- The whole evaluator-queue payload mapping. -/
structure EvaluatorPayload where
  interview_id : Option String
  candidate : Option PayloadCandidate
  job : Option PayloadJob
  transcript_data : Option PayloadTranscript
  evaluation_materials : Option PayloadEvalMaterials
  questions_and_answers : List PayloadQA
deriving DecidableEq

/-- Fallback rubric of `_create_interview_from_payload`. -/
def fallbackRubric : Rubric :=
  { name := "Technical Interview Rubric"
    version := 1
    criteria :=
      [("technical_proficiency",
        "Understanding of core concepts, problem-solving approach, code quality and efficiency (1-10)"),
       ("communication_skills",
        "Clarity of explanations, ability to articulate thought process, professionalism (1-10)"),
       ("cultural_fit",
        "Alignment with company values, enthusiasm for the role, collaboration mindset (1-10)")] }

/-- Default evaluator prompt of `_create_interview_from_payload`. -/
def fallbackEvaluatorPrompt : String :=
  "You are an expert technical recruiter and hiring manager. " ++
  "Your task is to evaluate the provided interview transcript based on the " ++
  "job description and the rubric. Provide a detailed, constructive, and " ++
  "unbiased evaluation. Assess the candidate\x27s technical skills, " ++
  "communication abilities, and overall fit for the role. " ++
  "Provide scores for each category in the rubric and a final summary."

/-- Embeds `BackgroundEvaluatorAgent._create_interview_from_payload`.
`freshId` stands for the uuid the `Interview` constructor would draw were the
payload id falsy; the constructor is called without `questions_and_answers`,
so the default Q&A list is used and the extracted pairs land in the stray
`questions_answers` attribute (only when non-empty, per the `if` guard). -/
def createInterviewFromPayload (payload : EvaluatorPayload) (freshId : String) :
    Interview :=
  let candidate := Candidate.make
    ((payload.candidate.bind PayloadCandidate.first_name).getD "Unknown")
    ((payload.candidate.bind PayloadCandidate.last_name).getD "Unknown")
  let job : Job :=
    { title := (payload.job.bind PayloadJob.title).getD "Unknown Position"
      description := (payload.job.bind PayloadJob.description).getD "No description available" }
  let full_text := (payload.transcript_data.bind PayloadTranscript.full_text_transcript).getD ""
  let structured :=
    (match payload.transcript_data with
     | some tp => tp.structured_transcript
     | none => []).map (fun (e : PayloadEntry) =>
        TranscriptEntry.mk (e.speaker.getD "unknown") (e.text.getD ""))
  let transcript : TranscriptData :=
    { full_text_transcript := full_text, structured_transcript := structured }
  let rubric :=
    match payload.evaluation_materials.bind PayloadEvalMaterials.rubric with
    | some rd => Rubric.from_dict rd
    | none => fallbackRubric
  let evaluator_prompt :=
    (payload.evaluation_materials.bind PayloadEvalMaterials.evaluator_prompt).getD
      fallbackEvaluatorPrompt
  let questions_answers := payload.questions_and_answers.map (fun qa =>
    QuestionAnswer.mk (qa.position.getD 0) (qa.question_text.getD "") (qa.ideal_answer.getD ""))
  let interview := Interview.make freshId
    (some (payload.interview_id.getD "unknown"))
    (some candidate)
    (some job)
    (some (EvaluationMaterials.mk evaluator_prompt rubric))
    (some transcript)
    none
  if questions_answers = [] then interview
  else { interview with questions_answers := questions_answers }

/-! ### Multi-provider aggregation (helpers.py lines 770-871)

The three provider coroutines are external I/O; their settled outcomes under
`asyncio.gather(*tasks, return_exceptions=True)` are passed in explicitly,
one `ProviderOutcome` per provider, in task order. -/

/-- Outcome of one provider call as surfaced by `gather` with
`return_exceptions=True`: either a captured exception or the returned dict
(which may itself be an explicit error marker such as
`\x7b"error": "OpenAI API key not configured"\x7d`, i.e. an `EvalDoc`
without a numeric `overall_score`). -/
inductive ProviderOutcome where
  | exn (msg : String)
  | val (d : EvalDoc)
deriving DecidableEq

/-- One slot of the `evaluations` map in the aggregation result. -/
inductive Slot where
  | errorDict (msg : String)
  | val (d : EvalDoc)
deriving DecidableEq

/-- Embeds the per-result branch of the processing loop:
`evaluations[key] = \x7b"error": str(result)\x7d` for an exception, the dict
itself otherwise. -/
def slotOf : ProviderOutcome → Slot
  | .exn m => .errorDict m
  | .val d => .val d

/-- Embeds the score-collection condition: the result is not an exception,
has an `"overall_score"` key, and its value is numeric. -/
def validScore : ProviderOutcome → Option ℚ
  | .exn _ => none
  | .val d =>
    match d.overall_score with
    | some (.num q) => some q
    | _ => none

/-- The list of valid provider scores, in task order. -/
def validScores (outs : List ProviderOutcome) : List ℚ :=
  outs.filterMap validScore

/-- Builds the `evaluations` map, keys `evaluation_i` from `enumerate(results, 1)`. -/
def mkEvaluationsFrom (i : ℕ) : List ProviderOutcome → List (String × Slot)
  | [] => []
  | r :: rs => ("evaluation_" ++ toString i, slotOf r) :: mkEvaluationsFrom (i + 1) rs

/-- Arithmetic mean of a list of rationals (`sum(scores) / len(scores)`). -/
def meanQ (l : List ℚ) : ℚ := l.sum / l.length

/-- Python 3 `round` to an integer: round half to even. -/
def pyRoundInt (q : ℚ) : ℤ :=
  let f := ⌊q⌋
  let frac := q - f
  if frac < 1 / 2 then f
  else if 1 / 2 < frac then f + 1
  else if f % 2 = 0 then f else f + 1

/-- Python `round(x, 1)`: round to one decimal, half to even. -/
def pyRound1 (q : ℚ) : ℚ := (pyRoundInt (q * 10) : ℚ) / 10

/-- Successful aggregation verdict of `run_full_evaluation`. -/
structure Verdict where
  interview_id : String
  evaluations : List (String × Slot)
  overall_score : ℚ
  recommendation : String
deriving DecidableEq

/-- Result dict of `run_full_evaluation`: the early guard dict (missing
transcript or job data), the outer `except Exception` dict (score 0,
recommendation `"Evaluation failed"`, the exception text), or the full
verdict built by the post-gather aggregation code. -/
inductive EvalOutput where
  | missingData (overall_score : ℚ) (recommendation : String) (error : String)
  | failed (overall_score : ℚ) (recommendation : String) (error : String)
  | verdict (v : Verdict)
deriving DecidableEq

/-- The `overall_score` key of any output shape. -/
def EvalOutput.scoreOf : EvalOutput → ℚ
  | .missingData s _ _ => s
  | .failed s _ _ => s
  | .verdict v => v.overall_score

/-- The `recommendation` key of any output shape. -/
def EvalOutput.recommendationOf : EvalOutput → String
  | .missingData _ r _ => r
  | .failed _ r _ => r
  | .verdict v => v.recommendation

/-! ### InterviewConfig and the evaluator constructor (config.py, helpers.py lines 18-35)

`RealLLMEvaluator.__init__` reads attributes off an `InterviewConfig`
instance.  The class (src/interview/config.py lines 14-49) defines only API
keys, the Supabase settings, two service constants and `validate`; nothing in
the repository defines `OPENAI_MODEL`, `GEMINI_MODEL` or `DEEPSEEK_MODEL`, so
in Python the first of those reads raises `AttributeError`. -/

/-- The attribute names defined on `InterviewConfig`. -/
def interviewConfigAttrs : List String :=
  ["GOOGLE_API_KEY", "DEEPGRAM_API_KEY", "ELEVENLABS_API_KEY", "SIMLI_API_KEY",
   "OPENAI_API_KEY", "DEEPSEEK_API_KEY", "OPENROUTER_API_KEY", "PERPLEXITY_API_KEY",
   "SUPABASE_URL", "SUPABASE_KEY", "LANGUAGE", "SAMPLE_RATE", "validate"]

/-- Python attribute access on an `InterviewConfig` instance: a name the
class does not define raises `AttributeError`.  Only definedness matters to
the control flow modelled here, so the success value is unit. -/
def configGetAttr (name : String) : Except String Unit :=
  if name ∈ interviewConfigAttrs then Except.ok ()
  else Except.error
    ("\x27InterviewConfig\x27 object has no attribute \x27" ++ name ++ "\x27")

/-- Embeds `RealLLMEvaluator.__init__` (helpers.py lines 21-35): it reads the
four API keys and then `config.OPENAI_MODEL`, `config.GEMINI_MODEL` and
`config.DEEPSEEK_MODEL`, in that order (the conditional Google-client
creation comes after and is never reached).  The first model read raises. -/
def realLLMEvaluatorInit : Except String Unit := do
  _ ← configGetAttr "OPENAI_API_KEY"
  _ ← configGetAttr "GOOGLE_API_KEY"
  _ ← configGetAttr "DEEPSEEK_API_KEY"
  _ ← configGetAttr "OPENROUTER_API_KEY"
  _ ← configGetAttr "OPENAI_MODEL"
  _ ← configGetAttr "GEMINI_MODEL"
  _ ← configGetAttr "DEEPSEEK_MODEL"
  Except.ok ()

/-- Input dict of `run_full_evaluation`, one field per `interview_data.get`
call that influences the result.  The remaining extracted fields
(`candidate`, `rubric`, `questions_answers`, `structured_transcript`) only
shape the prompt text sent to the providers and therefore only matter through
the provider outcomes. -/
structure InterviewDataIn where
  interview_id : String
  transcript : String
  job : Option PayloadJob
deriving DecidableEq

/-- Embeds the post-`gather` part of `run_full_evaluation` (helpers.py lines
834-864), applied to the gathered outcomes: the `evaluations` map, the mean
of the valid scores (0 when none), the threshold table, and the one-decimal
rounding of the reported score.  In the current repository this code is
unreachable: `RealLLMEvaluator()` raises before the tasks are created. -/
def aggregateGatheredResults (d : InterviewDataIn) (outs : List ProviderOutcome) :
    EvalOutput :=
  let evaluations := mkEvaluationsFrom 1 outs
  let scores := validScores outs
  let overall_score : ℚ := if scores = [] then 0 else meanQ scores
  let recommendation :=
    if overall_score ≥ 85 then "Strong Yes"
    else if overall_score ≥ 70 then "Maybe"
    else "No"
  .verdict
    { interview_id := d.interview_id
      evaluations := evaluations
      overall_score := pyRound1 overall_score
      recommendation := recommendation }

/-- Embeds `EvaluationHelper.run_full_evaluation` (helpers.py lines 770-871):
the guard on falsy transcript/job, then — inside the `try` — the
`RealLLMEvaluator()` construction, whose `AttributeError` is caught by the
outer `except Exception` and turned into the score-0 `"Evaluation failed"`
dict.  `outs` stands for the outcomes the `asyncio.gather` fan-out would
return were the construction to succeed; with the repository's
`InterviewConfig` it never does. -/
def run_full_evaluation (d : InterviewDataIn) (outs : List ProviderOutcome) :
    EvalOutput :=
  if d.transcript = "" ∨ d.job = none then
    .missingData 0 "Missing data for evaluation" "Transcript or job data missing"
  else
    match realLLMEvaluatorInit with
    | .error e => .failed 0 "Evaluation failed" e
    | .ok _ => aggregateGatheredResults d outs

/-! ### Dispatcher result handling (background_evaluator.py lines 244-350) -/

/-- Success-path return dict of `_run_llm_evaluation`: the single aggregated
result is placed into all three per-provider keys (the per-provider LLM calls
are a TODO in the source).  The `except` branch (a dict without the three
keys) corresponds to all three slots absent, hence the `Option` typing. -/
structure LLMEvalResults where
  evaluation_1 : Option EvalOutput
  evaluation_2 : Option EvalOutput
  evaluation_3 : Option EvalOutput
  overall_score : ℚ
  recommendation : String
deriving DecidableEq

/-- Embeds the success path of `BackgroundEvaluatorAgent._run_llm_evaluation`:
the one `run_full_evaluation` result `r` is duplicated into
`evaluation_1/2/3`, and its score and recommendation are copied up. -/
def runLLMEvaluation (r : EvalOutput) : LLMEvalResults :=
  { evaluation_1 := some r
    evaluation_2 := some r
    evaluation_3 := some r
    overall_score := r.scoreOf
    recommendation := r.recommendationOf }

/-- Row of the `evaluations` table (`Evaluation` in the repository layer). -/
structure EvaluationRecord where
  interview_id : String
  evaluator_llm_model : String
  score : Option ℚ
  reasoning : String
  raw_llm_response : EvalOutput
deriving DecidableEq

/-- Embeds the stored score expression
`eval_data.get("overall_score") or eval_data.get("score")`: the
`overall_score` key is always present on an aggregation result, so Python
`or` falls through to the absent `"score"` key (i.e. `None`) exactly when the
overall score is falsy, namely `0`. -/
def storedScore (r : EvalOutput) : Option ℚ :=
  if r.scoreOf = 0 then none else some r.scoreOf

/-- Record built for one per-provider slot of `_store_evaluation_results`;
the slot's dict is stored only when present (truthy). -/
def recordForSlot (interview_id model : String) : Option EvalOutput →
    List EvaluationRecord
  | none => []
  | some r =>
    [{ interview_id := interview_id
       evaluator_llm_model := model
       score := storedScore r
       reasoning := r.recommendationOf
       raw_llm_response := r }]

/-- The three evaluation rows `_store_evaluation_results` inserts, under the
fixed model names, in order. -/
def mkEvaluationRecords (interview_id : String) (res : LLMEvalResults) :
    List EvaluationRecord :=
  recordForSlot interview_id "gpt-4o" res.evaluation_1 ++
  recordForSlot interview_id "gemini-2.5-flash" res.evaluation_2 ++
  recordForSlot interview_id "deepseek-chat" res.evaluation_3

/-! ### Record store state (the opaque Supabase tables)

State of the three tables the pipeline touches; operations are embedded as
state transformers on it (their happy path — every branch that matters to the
claims is a plain sequence of inserts/updates). -/

/-- Row of the `transcripts` table. -/
structure TranscriptRecord where
  interview_id : String
  full_text : String
deriving DecidableEq

/-- The record store: transcripts, evaluations, and interview statuses. -/
structure Store where
  transcripts : List TranscriptRecord
  evaluations : List EvaluationRecord
  statuses : List (String × String)
deriving DecidableEq

/-- Embeds `table("interviews").update(\x7b"status": s\x7d).eq("interview_id", id)`:
update the status of every row with the given id (no-op when absent). -/
def setStatus (l : List (String × String)) (id status : String) :
    List (String × String) :=
  l.map (fun p => if p.1 = id then (p.1, status) else p)

/-- Current status of an interview row, if the row exists. -/
def statusOf (st : Store) (id : String) : Option String :=
  (st.statuses.find? (fun p => p.1 = id)).map Prod.snd

/-- Whether a transcript record exists for the interview id. -/
def hasTranscript (st : Store) (id : String) : Bool :=
  st.transcripts.any (fun t => t.interview_id = id)

/-- Embeds the happy path of
`BackgroundEvaluatorAgent._store_evaluation_results`: insert the per-slot
evaluation rows, then update the interview status to `"evaluated"`
unconditionally — no step consults the `transcripts` table — and return
`True`. -/
def storeEvaluationResults (st : Store) (interview_id : String)
    (res : LLMEvalResults) : Store × Bool :=
  ({ st with
      evaluations := st.evaluations ++ mkEvaluationRecords interview_id res
      statuses := setStatus st.statuses interview_id "evaluated" },
   true)

/-- Insert one row into the `evaluations` table. -/
def insertEvaluationRecord (st : Store) (rec : EvaluationRecord) : Store :=
  { st with evaluations := st.evaluations ++ [rec] }

/-- Embeds the `unique_models` computation of `write_evaluation`: the number
of distinct truthy (non-empty) evaluator models among the evaluations
recorded for the interview. -/
def uniqueModelCount (st : Store) (interview_id : String) : ℕ :=
  ((((st.evaluations.filter (fun e => e.interview_id = interview_id)).map
      EvaluationRecord.evaluator_llm_model).filter (fun m => m ≠ "")).dedup).length

/-- Embeds the happy path of `EvaluationService.write_evaluation`: insert the
evaluation row, count the distinct (truthy) evaluator models recorded for the
interview, and update the status to `"evaluated"` exactly when at least 3
are present — again with no look at the `transcripts` table. -/
def write_evaluation (st : Store) (interview_id evaluator_llm_model : String)
    (score : ℚ) (reasoning : String) (raw : EvalOutput) : Store × Bool :=
  let st1 := insertEvaluationRecord st
    { interview_id := interview_id
      evaluator_llm_model := evaluator_llm_model
      score := some score
      reasoning := reasoning
      raw_llm_response := raw }
  if 3 ≤ uniqueModelCount st1 interview_id then
    ({ st1 with statuses := setStatus st1.statuses interview_id "evaluated" }, true)
  else
    (st1, true)

/-! ### Transcript write (services.py lines 92-153) -/

/-- Outcome of one external record-store call (the body of one `try`). -/
inductive StepOutcome where
  | ok
  | err (msg : String)
deriving DecidableEq

/-- What `TranscriptService.write_transcript` reports: the returned Boolean
and the two per-step success flags its control flow tracks. -/
structure WriteTranscriptReport where
  returned : Bool
  transcript_success : Bool
  status_update_success : Bool
deriving DecidableEq

/-- Embeds `TranscriptService.write_transcript` over the record store, the
two external call outcomes given explicitly.  A failing insert returns
`False` at once (its `except` swallows the exception); a successful insert
proceeds to the independently guarded status update, whose failure is
reported via the flags but never changes the returned value. -/
def write_transcript (st : Store) (interview_id full_text : String)
    (insertOutcome patchOutcome : StepOutcome) :
    Store × WriteTranscriptReport :=
  match insertOutcome with
  | .err _ =>
    (st, { returned := false, transcript_success := false,
           status_update_success := false })
  | .ok =>
    let st1 : Store :=
      { st with transcripts := st.transcripts ++
          [{ interview_id := interview_id, full_text := full_text }] }
    match patchOutcome with
    | .ok =>
      ({ st1 with statuses := setStatus st1.statuses interview_id "completed" },
       { returned := true, transcript_success := true,
         status_update_success := true })
    | .err _ =>
      (st1,
       { returned := true, transcript_success := true,
         status_update_success := false })

/-! ### Context compaction (interview_tools.py lines 27-85) -/

/-- One conversation message of the live working context. -/
structure Message where
  role : String
  content : String
deriving DecidableEq

/-- The new system message holding the running summary. -/
def summaryMessage (summary : String) : Message :=
  { role := "system", content := "Interview Progress Summary: " ++ summary }

/-- What the tool passes to `params.result_callback`. -/
structure ToolReply where
  status : String
  message : Option String
  messages_removed : Option ℤ
  remaining_messages : Option ℕ
deriving DecidableEq

/-- Embeds `clean_context_and_summarize`.  `ctx` is the message list held by
the context aggregator (`none` when the global aggregator is unset); the
result pairs the possibly-replaced context with the callback payload.  When
the summary is non-empty and a context exists, the context is replaced by the
first `"system"`-role message (if any) followed by the new summary message,
and the removed/remaining counts are reported. -/
def clean_context_and_summarize (summary : String)
    (ctx : Option (List Message)) : Option (List Message) × ToolReply :=
  if summary = "" then
    (ctx, { status := "error", message := some "Summary is required",
            messages_removed := none, remaining_messages := none })
  else
    match ctx with
    | none =>
      (none, { status := "error", message := some "Context aggregator not available",
               messages_removed := none, remaining_messages := none })
    | some current_messages =>
      let initial_system_msg := current_messages.find? (fun m => m.role = "system")
      let cleaned_messages :=
        (match initial_system_msg with
         | some m => [m]
         | none => []) ++ [summaryMessage summary]
      (some cleaned_messages,
       { status := "context_cleaned"
         message := none
         messages_removed :=
           some ((current_messages.length : ℤ) - cleaned_messages.length)
         remaining_messages := some cleaned_messages.length })

/-! ### C1 -/

/-- C1: for every Candidate constructed from any first/last name input, the
exported identity is the fixed placeholder pair `("Candidate", "A")`, and
every Interview produced by `_create_interview_from_payload` carries this
anonymized candidate regardless of the names in the payload. -/
theorem candidate_identity_always_anonymized :
    (∀ first_name last_name : String,
      (Candidate.make first_name last_name).to_dict = ("Candidate", "A")) ∧
    (∀ (payload : EvaluatorPayload) (freshId : String),
      (createInterviewFromPayload payload freshId).candidate.to_dict =
        ("Candidate", "A")) := by
  refine ⟨fun _ _ => rfl, fun payload freshId => ?_⟩
  simp only [createInterviewFromPayload]
  split <;> rfl

/-! ### C10 -/

/-- C10: the dispatcher duplicates the single aggregated evaluation result
into all three per-provider slots, so the three records stored under
`gpt-4o`, `gemini-2.5-flash` and `deepseek-chat` carry identical score and
raw-response content for a given interview. -/
theorem dispatcher_duplicates_aggregated_result (r : EvalOutput)
    (interview_id : String) :
    (runLLMEvaluation r).evaluation_1 = some r ∧
    (runLLMEvaluation r).evaluation_2 = some r ∧
    (runLLMEvaluation r).evaluation_3 = some r ∧
    mkEvaluationRecords interview_id (runLLMEvaluation r) =
      [{ interview_id := interview_id, evaluator_llm_model := "gpt-4o",
         score := storedScore r, reasoning := r.recommendationOf,
         raw_llm_response := r },
       { interview_id := interview_id, evaluator_llm_model := "gemini-2.5-flash",
         score := storedScore r, reasoning := r.recommendationOf,
         raw_llm_response := r },
       { interview_id := interview_id, evaluator_llm_model := "deepseek-chat",
         score := storedScore r, reasoning := r.recommendationOf,
         raw_llm_response := r }] :=
  ⟨rfl, rfl, rfl, rfl⟩

/-! ### C9 -/

/-- C9: `write_transcript` returns `True` exactly when the transcript insert
succeeded; a failing status update is reported through the success flag but
never changes the returned value, and a failed insert returns `False`
(the exception is swallowed, not propagated). -/
theorem write_transcript_reports_insert_success (st : Store)
    (interview_id full_text : String)
    (insertOutcome patchOutcome : StepOutcome) :
    ((write_transcript st interview_id full_text insertOutcome patchOutcome).2.returned = true
        ↔ insertOutcome = StepOutcome.ok) ∧
    ((write_transcript st interview_id full_text StepOutcome.ok patchOutcome).2.returned = true) ∧
    ((write_transcript st interview_id full_text StepOutcome.ok patchOutcome).2.status_update_success = true
        ↔ patchOutcome = StepOutcome.ok) := by
  cases insertOutcome <;> cases patchOutcome <;> simp [write_transcript]

/-! ### Aggregation reachability (shared by several claims)

The attribute read `config.OPENAI_MODEL` fails, so every guard-passing call
of `run_full_evaluation` lands in the outer exception handler. -/

/-- The evaluator constructor deterministically raises: `InterviewConfig`
defines no `OPENAI_MODEL`. -/
theorem realLLMEvaluatorInit_raises :
    realLLMEvaluatorInit = Except.error
      "\x27InterviewConfig\x27 object has no attribute \x27OPENAI_MODEL\x27" := rfl

/-- Every call of `run_full_evaluation` that passes the transcript/job guard
returns the outer-handler dict: overall score 0, recommendation
`"Evaluation failed"`, and the `AttributeError` text — for any provider
outcomes, which are never solicited. -/
theorem run_full_evaluation_always_fails (d : InterviewDataIn)
    (outs : List ProviderOutcome) (ht : d.transcript ≠ "") (hj : d.job ≠ none) :
    run_full_evaluation d outs = .failed 0 "Evaluation failed"
      "\x27InterviewConfig\x27 object has no attribute \x27OPENAI_MODEL\x27" := by
  unfold run_full_evaluation
  rw [if_neg (by push_neg; exact ⟨ht, hj⟩), realLLMEvaluatorInit_raises]

/-! ### C2 -/

/-- C2 counterexample: a concrete guard-passing input on which no provider
produced a valid numeric overall score (none is ever asked): the result is
overall score 0 with recommendation `"Evaluation failed"` — produced by the
outer exception handler catching the `RealLLMEvaluator()` `AttributeError` —
and not the lowercase `"evaluation failed"` the claim states. -/
theorem evaluation_failed_literal_counterexample :
    (run_full_evaluation
        { interview_id := "int-1", transcript := "hello",
          job := some { title := some "Engineer", description := some "desc" } }
        []).scoreOf = 0 ∧
    (run_full_evaluation
        { interview_id := "int-1", transcript := "hello",
          job := some { title := some "Engineer", description := some "desc" } }
        []).recommendationOf = "Evaluation failed" ∧
    (run_full_evaluation
        { interview_id := "int-1", transcript := "hello",
          job := some { title := some "Engineer", description := some "desc" } }
        []).recommendationOf ≠ "evaluation failed" :=
  ⟨rfl, rfl, by decide⟩

/-- C2 amended: for every guard-passing input — in particular whenever zero
valid numeric provider scores exist, which in this repository is every call,
since `RealLLMEvaluator()` raises `AttributeError` before any provider task
is created — `run_full_evaluation` returns overall score 0 and recommendation
`"Evaluation failed"` (capitalized), via the outer exception handler rather
than a zero-valid-scores aggregation branch. -/
theorem aggregation_always_evaluation_failed (d : InterviewDataIn)
    (outs : List ProviderOutcome) (ht : d.transcript ≠ "") (hj : d.job ≠ none) :
    (run_full_evaluation d outs).scoreOf = 0 ∧
    (run_full_evaluation d outs).recommendationOf = "Evaluation failed" := by
  rw [run_full_evaluation_always_fails d outs ht hj]
  exact ⟨rfl, rfl⟩

/-- C2 witness: the amended theorem applied at a concrete input. -/
theorem aggregation_always_evaluation_failed_witness :
    (run_full_evaluation
        { interview_id := "w2", transcript := "t",
          job := some { title := some "T", description := none } }
        [ProviderOutcome.exn "boom"]).scoreOf = 0 ∧
    (run_full_evaluation
        { interview_id := "w2", transcript := "t",
          job := some { title := some "T", description := none } }
        [ProviderOutcome.exn "boom"]).recommendationOf = "Evaluation failed" :=
  aggregation_always_evaluation_failed _ _ (by decide) (by decide)

/-! ### C3 -/

/-- Data at which C3 fails: transcript and job present, so the guard passes. -/
def failingInputC3 : InterviewDataIn :=
  { interview_id := "i3", transcript := "hello",
    job := some { title := some "T", description := some "D" } }

/-- Hypothetical provider outcomes for C3: two valid scores of 90, whose mean
the claimed aggregation would turn into 90 / `"Strong Yes"`. -/
def hypotheticalOutsC3 : List ProviderOutcome :=
  [ProviderOutcome.val { overall_score := some (JVal.num 90), raw := "r1" },
   ProviderOutcome.val { overall_score := some (JVal.num 90), raw := "r2" }]

/-- C3: the mean-of-valid-scores and 85/70 threshold computation is dead
code.  At the failing input, even granting two providers a valid score of
90 (mean 90, which the claim maps to `"Strong Yes"`), the program returns
overall score 0 and `"Evaluation failed"`: `RealLLMEvaluator()` raises
`AttributeError` (no `InterviewConfig.OPENAI_MODEL`) before any provider
call, so the aggregation the claim describes never runs. -/
theorem aggregation_thresholds_dead_code :
    run_full_evaluation failingInputC3 hypotheticalOutsC3 =
      EvalOutput.failed 0 "Evaluation failed"
        "\x27InterviewConfig\x27 object has no attribute \x27OPENAI_MODEL\x27" ∧
    meanQ (validScores hypotheticalOutsC3) = 90 ∧
    (run_full_evaluation failingInputC3 hypotheticalOutsC3).scoreOf ≠ 90 ∧
    (run_full_evaluation failingInputC3 hypotheticalOutsC3).recommendationOf ≠
      "Strong Yes" := by
  refine ⟨rfl, ?_, by decide, by decide⟩
  have hv : validScores hypotheticalOutsC3 = [90, 90] := rfl
  rw [hv]
  norm_num [meanQ]

/-! ### C4 -/

/-- Updating the status of an id rewrites the found row's status and keeps
its key. -/
theorem find?_setStatus (l : List (String × String)) (id s : String) :
    (setStatus l id s).find? (fun p => p.1 = id) =
      (l.find? (fun p => p.1 = id)).map (fun p => (p.1, s)) := by
  induction l with
  | nil => rfl
  | cons p ps ih =>
    by_cases hp : p.1 = id
    · simp only [setStatus, List.map_cons, if_pos hp]
      rw [List.find?_cons_of_pos _ (by simpa using hp),
          List.find?_cons_of_pos _ (by simpa using hp)]
      rfl
    · simp only [setStatus, List.map_cons, if_neg hp]
      rw [List.find?_cons_of_neg _ (by simpa using hp),
          List.find?_cons_of_neg _ (by simpa using hp)]
      simpa [setStatus] using ih

/-- Status lookup after a status update on a store whose row exists. -/
theorem statusOf_setStatus (statuses : List (String × String))
    (transcripts : List TranscriptRecord) (evaluations : List EvaluationRecord)
    (id old s : String)
    (hrow : statusOf { transcripts := transcripts, evaluations := evaluations,
                       statuses := statuses } id = some old) :
    statusOf { transcripts := transcripts, evaluations := evaluations,
               statuses := setStatus statuses id s } id = some s := by
  unfold statusOf at hrow ⊢
  rw [find?_setStatus]
  obtain ⟨p, hp, -⟩ := Option.map_eq_some'.mp hrow
  rw [hp]
  rfl

/-- C4 counterexample: a store holding a `completed` interview row and no
transcript record at all; the dispatcher's result-storing step still returns
`True` and flips the status to `evaluated` — the missing transcript is
neither rejected nor deferred. -/
theorem evaluated_without_transcript_counterexample :
    hasTranscript { transcripts := [], evaluations := [],
                    statuses := [("i1", "completed")] } "i1" = false ∧
    (storeEvaluationResults
        { transcripts := [], evaluations := [], statuses := [("i1", "completed")] }
        "i1"
        (runLLMEvaluation (EvalOutput.verdict
          { interview_id := "i1", evaluations := [], overall_score := 80,
            recommendation := "Maybe" }))).2 = true ∧
    statusOf (storeEvaluationResults
        { transcripts := [], evaluations := [], statuses := [("i1", "completed")] }
        "i1"
        (runLLMEvaluation (EvalOutput.verdict
          { interview_id := "i1", evaluations := [], overall_score := 80,
            recommendation := "Maybe" }))).1 "i1" = some "evaluated" ∧
    hasTranscript (storeEvaluationResults
        { transcripts := [], evaluations := [], statuses := [("i1", "completed")] }
        "i1"
        (runLLMEvaluation (EvalOutput.verdict
          { interview_id := "i1", evaluations := [], overall_score := 80,
            recommendation := "Maybe" }))).1 "i1" = false := by
  refine ⟨rfl, rfl, ?_, rfl⟩
  rfl

/-- C4 amended: neither `evaluated`-writing path consults the transcript
table.  On any store whose interview row exists — even with no transcript
record — the dispatcher's `_store_evaluation_results` returns `True` and
writes `evaluated` unconditionally, and `write_evaluation` writes
`evaluated` as soon as at least 3 distinct evaluator models are recorded;
the claimed reject-or-defer behaviour does not exist in either path. -/
theorem evaluated_transition_lacks_transcript_guard (st : Store) (id : String)
    (res : LLMEvalResults) (model reasoning : String) (score : ℚ)
    (raw : EvalOutput)
    (hst : statusOf st id = some "completed")
    (hnt : hasTranscript st id = false) :
    ((storeEvaluationResults st id res).2 = true ∧
      statusOf (storeEvaluationResults st id res).1 id = some "evaluated") ∧
    (3 ≤ uniqueModelCount (insertEvaluationRecord st
          { interview_id := id, evaluator_llm_model := model,
            score := some score, reasoning := reasoning,
            raw_llm_response := raw }) id →
      (write_evaluation st id model score reasoning raw).2 = true ∧
      statusOf (write_evaluation st id model score reasoning raw).1 id =
        some "evaluated") := by
  obtain ⟨transcripts, evaluations, statuses⟩ := st
  refine ⟨⟨rfl, statusOf_setStatus _ _ _ _ _ _ hst⟩, fun h3 => ?_⟩
  unfold write_evaluation
  rw [if_pos h3]
  exact ⟨rfl, statusOf_setStatus _ _ _ _ _ _ hst⟩

/-- Store for the C4 witness: interview `i2` is `completed`, two evaluator
models already recorded, and no transcript record exists. -/
def exampleStoreC4 : Store :=
  { transcripts := []
    evaluations :=
      [{ interview_id := "i2", evaluator_llm_model := "gpt-4o", score := some 80,
         reasoning := "ok", raw_llm_response := EvalOutput.missingData 0 "x" "e" },
       { interview_id := "i2", evaluator_llm_model := "gemini-2.5-flash",
         score := some 70, reasoning := "ok",
         raw_llm_response := EvalOutput.missingData 0 "x" "e" }]
    statuses := [("i2", "completed")] }

/-- Aggregated result used by the C4 witness. -/
def exampleRawC4 : EvalOutput :=
  EvalOutput.verdict
    { interview_id := "i2", evaluations := [], overall_score := 75,
      recommendation := "Maybe" }

/-- C4 witness: the amended theorem applied at a concrete store with no
transcript record. -/
theorem evaluated_transition_lacks_transcript_guard_witness :
    ((storeEvaluationResults exampleStoreC4 "i2" (runLLMEvaluation exampleRawC4)).2 = true ∧
      statusOf (storeEvaluationResults exampleStoreC4 "i2"
        (runLLMEvaluation exampleRawC4)).1 "i2" = some "evaluated") ∧
    ((write_evaluation exampleStoreC4 "i2" "deepseek-chat" 80 "ok" exampleRawC4).2 = true ∧
      statusOf (write_evaluation exampleStoreC4 "i2" "deepseek-chat" 80 "ok"
        exampleRawC4).1 "i2" = some "evaluated") := by
  have h := evaluated_transition_lacks_transcript_guard exampleStoreC4 "i2"
    (runLLMEvaluation exampleRawC4) "deepseek-chat" "ok" 80 exampleRawC4 rfl rfl
  exact ⟨h.1, h.2 (by decide)⟩

/-! ### C5 -/

/-- C5: with a non-empty summary, the compaction tool replaces the working
message list by the first system-role message (if one exists, preserved
unchanged at position 0) followed by the new summary system message, drops
every other prior message, and reports the removed and remaining counts. -/
theorem compaction_replaces_context_with_summary (msgs : List Message)
    (summary : String) (hs : summary ≠ "") :
    ∃ ms : List Message,
      (clean_context_and_summarize summary (some msgs)).1 = some ms ∧
      ms = (match msgs.find? (fun m => m.role = "system") with
            | some m => [m]
            | none => []) ++ [summaryMessage summary] ∧
      (∀ m, msgs.find? (fun m2 => m2.role = "system") = some m →
        ms = [m, summaryMessage summary]) ∧
      (msgs.find? (fun m => m.role = "system") = none →
        ms = [summaryMessage summary]) ∧
      (clean_context_and_summarize summary (some msgs)).2.status = "context_cleaned" ∧
      (clean_context_and_summarize summary (some msgs)).2.messages_removed =
        some ((msgs.length : ℤ) - ms.length) ∧
      (clean_context_and_summarize summary (some msgs)).2.remaining_messages =
        some ms.length := by
  unfold clean_context_and_summarize
  rw [if_neg hs]
  refine ⟨_, rfl, rfl, ?_, ?_, rfl, rfl, rfl⟩
  · intro m hm
    rw [hm]
    rfl
  · intro hm
    rw [hm]
    rfl

/-- Messages for the C5 witness. -/
def exampleMsgsC5 : List Message :=
  [{ role := "system", content := "You are the interviewer" },
   { role := "user", content := "hi" },
   { role := "assistant", content := "hello" }]

/-- C5 witness: the theorem applied at a concrete message list with a system
instruction and two turns. -/
theorem compaction_replaces_context_witness :
    ∃ ms : List Message,
      (clean_context_and_summarize "covered Q1" (some exampleMsgsC5)).1 = some ms ∧
      ms = (match exampleMsgsC5.find? (fun m => m.role = "system") with
            | some m => [m]
            | none => []) ++ [summaryMessage "covered Q1"] ∧
      (∀ m, exampleMsgsC5.find? (fun m2 => m2.role = "system") = some m →
        ms = [m, summaryMessage "covered Q1"]) ∧
      (exampleMsgsC5.find? (fun m => m.role = "system") = none →
        ms = [summaryMessage "covered Q1"]) ∧
      (clean_context_and_summarize "covered Q1" (some exampleMsgsC5)).2.status =
        "context_cleaned" ∧
      (clean_context_and_summarize "covered Q1" (some exampleMsgsC5)).2.messages_removed =
        some ((exampleMsgsC5.length : ℤ) - ms.length) ∧
      (clean_context_and_summarize "covered Q1" (some exampleMsgsC5)).2.remaining_messages =
        some ms.length :=
  compaction_replaces_context_with_summary exampleMsgsC5 "covered Q1" (by decide)

/-! ### C7 -/

/-- After a successful compaction the new working list starts with a
system-role message (the preserved instruction, or failing that the summary
message itself, whose role is `"system"`). -/
theorem clean_context_head_system (summary : String) (hs : summary ≠ "")
    (msgs l : List Message)
    (hl : (clean_context_and_summarize summary (some msgs)).1 = some l) :
    ∃ m0 t, l = m0 :: t ∧ m0.role = "system" := by
  unfold clean_context_and_summarize at hl
  rw [if_neg hs] at hl
  replace hl : some ((match msgs.find? (fun m => m.role = "system") with
      | some m => [m]
      | none => []) ++ [summaryMessage summary]) = some l := hl
  cases hfind : msgs.find? (fun m => m.role = "system") with
  | some m =>
    rw [hfind] at hl
    injection hl with h
    have hp := List.find?_some hfind
    simp only [decide_eq_true_eq] at hp
    exact ⟨m, [summaryMessage summary], h.symm, hp⟩
  | none =>
    rw [hfind] at hl
    injection hl with h
    exact ⟨summaryMessage summary, [], h.symm, rfl⟩

/-- C7: two successive compactions with non-empty summaries, with any
messages appended in between, always leave exactly 2 messages: a system
message at position 0 and the latest summary message — never 3 or more. -/
theorem compaction_twice_yields_two_messages (msgs turns : List Message)
    (s1 s2 : String) (h1 : s1 ≠ "") (h2 : s2 ≠ "") (l1 l2 : List Message)
    (hl1 : (clean_context_and_summarize s1 (some msgs)).1 = some l1)
    (hl2 : (clean_context_and_summarize s2 (some (l1 ++ turns))).1 = some l2) :
    l2.length = 2 ∧
    (∃ m0, l2.get? 0 = some m0 ∧ m0.role = "system") ∧
    l2.get? 1 = some (summaryMessage s2) := by
  obtain ⟨m0, t, rfl, hrole⟩ := clean_context_head_system s1 h1 msgs l1 hl1
  unfold clean_context_and_summarize at hl2
  rw [if_neg h2] at hl2
  replace hl2 : some ((match ((m0 :: t) ++ turns).find? (fun m => m.role = "system") with
      | some m => [m]
      | none => []) ++ [summaryMessage s2]) = some l2 := hl2
  have hfind : ((m0 :: t) ++ turns).find? (fun m => m.role = "system") = some m0 := by
    rw [List.cons_append]
    exact List.find?_cons_of_pos _ (by simpa using hrole)
  rw [hfind] at hl2
  injection hl2 with h
  refine ⟨by rw [← h]; rfl, ⟨m0, by rw [← h]; exact ⟨rfl, hrole⟩⟩, by rw [← h]; rfl⟩

/-- C7 witness: starting from an empty list, compacting, adding two turns and
compacting again leaves exactly the two expected messages. -/
theorem compaction_twice_witness :
    ([summaryMessage "sum one", summaryMessage "sum two"] : List Message).length = 2 ∧
    (∃ m0, ([summaryMessage "sum one", summaryMessage "sum two"] :
        List Message).get? 0 = some m0 ∧ m0.role = "system") ∧
    ([summaryMessage "sum one", summaryMessage "sum two"] :
        List Message).get? 1 = some (summaryMessage "sum two") :=
  compaction_twice_yields_two_messages []
    [{ role := "user", content := "a" }, { role := "assistant", content := "b" }]
    "sum one" "sum two" (by decide) (by decide)
    [summaryMessage "sum one"] [summaryMessage "sum one", summaryMessage "sum two"]
    (by decide) (by decide)

/-! ### C6 -/

/-- Each rendered entry has positive length (it begins with the marker). -/
theorem renderEntry_length_pos (e : TranscriptEntry) : 0 < (renderEntry e).length := by
  unfold renderEntry
  rw [String.length_append, String.length_append, String.length_append,
      String.length_append, String.length_append]
  have h2 : ("**" : String).length = 2 := rfl
  omega

/-- A rendered entry is never the empty string. -/
theorem renderEntry_ne_empty (e : TranscriptEntry) : renderEntry e ≠ "" := by
  intro h
  have hpos := renderEntry_length_pos e
  rw [h] at hpos
  exact absurd hpos (by decide)

/-- The join of a non-empty entry list is never the empty string. -/
theorem joinRendered_ne_empty (e : TranscriptEntry) (es : List TranscriptEntry) :
    joinRendered (e :: es) ≠ "" := by
  cases es with
  | nil => exact renderEntry_ne_empty e
  | cons b bs =>
    intro h
    have hlen := congrArg String.length h
    rw [show joinRendered (e :: b :: bs) =
          renderEntry e ++ "\n\n" ++ joinRendered (b :: bs) from rfl] at hlen
    rw [String.length_append, String.length_append] at hlen
    have hpos := renderEntry_length_pos e
    have h0 : ("" : String).length = 0 := rfl
    omega

/-- Appending one entry to a non-empty list extends the join by the separator
and the rendered entry. -/
theorem joinRendered_append_singleton (es : List TranscriptEntry)
    (x : TranscriptEntry) (h : es ≠ []) :
    joinRendered (es ++ [x]) = joinRendered es ++ "\n\n" ++ renderEntry x := by
  induction es with
  | nil => exact absurd rfl h
  | cons a as ih =>
    cases as with
    | nil => rfl
    | cons b bs =>
      have ih2 := ih (by simp)
      show renderEntry a ++ "\n\n" ++ joinRendered ((b :: bs) ++ [x]) =
        (renderEntry a ++ "\n\n" ++ joinRendered (b :: bs)) ++ "\n\n" ++ renderEntry x
      rw [ih2]
      simp [String.append_assoc]

/-- Appending an entry preserves the round-trip invariant of the transcript. -/
theorem TranscriptData.add_entry_keeps_consistent (td : TranscriptData)
    (speaker text : String) (h : td.consistent) :
    (td.add_entry speaker text).consistent := by
  obtain ⟨ft, es⟩ := td
  unfold TranscriptData.consistent at h ⊢
  unfold TranscriptData.add_entry
  dsimp only at h ⊢
  subst h
  cases es with
  | nil =>
    rw [if_pos (show joinRendered [] = "" from rfl)]
    rfl
  | cons a as =>
    rw [if_neg (joinRendered_ne_empty a as),
        joinRendered_append_singleton (a :: as) _ (List.cons_ne_nil a as),
        String.append_assoc]

/-- C6: whenever the full-text transcript equals the join of the structured
entries under the fixed rendering, `add_transcript_entry` preserves that
equality: the two representations never diverge on append. -/
theorem add_transcript_entry_preserves_roundtrip (iv : Interview)
    (speaker text : String) (h : iv.transcript_data.consistent) :
    (iv.add_transcript_entry speaker text).transcript_data.consistent :=
  TranscriptData.add_entry_keeps_consistent iv.transcript_data speaker text h

/-- Concrete interview for the C6 witness (empty, consistent, transcript). -/
def exampleInterviewC6 : Interview :=
  { interview_id := "t1", candidate := Candidate.make "Jane" "Doe",
    job := { title := "T", description := "D" },
    evaluation_materials :=
      { evaluator_prompt := "p",
        rubric := { name := "r", version := 1, criteria := [] } },
    transcript_data := { full_text_transcript := "", structured_transcript := [] },
    questions_and_answers := [], questions_answers := [],
    evaluation_1 := none, evaluation_2 := none, evaluation_3 := none }

/-- C6 witness: the theorem applied at a concrete interview and entry. -/
theorem add_transcript_entry_roundtrip_witness :
    (exampleInterviewC6.add_transcript_entry "interviewer"
      "Hello there").transcript_data.consistent :=
  add_transcript_entry_preserves_roundtrip exampleInterviewC6 "interviewer"
    "Hello there" (by decide)

/-! ### C8 -/

/-- Guard-passing input for C8. -/
def failingInputC8 : InterviewDataIn :=
  { interview_id := "i8", transcript := "hi",
    job := some { title := some "T", description := some "D" } }

/-- C8: no provider evaluation is ever issued.  `RealLLMEvaluator()` raises
`AttributeError` before the provider tasks and the `asyncio.gather` call are
reached, so for every hypothetical set of provider outcomes the result is
the outer-handler dict — never a verdict carrying a per-provider
`evaluations` map, and with no slot in which a provider failure could be
isolated.  (Only the "no exception propagates to the caller" part of the
claim survives, via that same handler.) -/
theorem provider_fan_out_never_issued :
    (∀ outs : List ProviderOutcome,
      run_full_evaluation failingInputC8 outs =
        EvalOutput.failed 0 "Evaluation failed"
          "\x27InterviewConfig\x27 object has no attribute \x27OPENAI_MODEL\x27") ∧
    (∀ (outs : List ProviderOutcome) (v : Verdict),
      run_full_evaluation failingInputC8 outs ≠ EvalOutput.verdict v) := by
  have h : ∀ outs : List ProviderOutcome,
      run_full_evaluation failingInputC8 outs =
        EvalOutput.failed 0 "Evaluation failed"
          "\x27InterviewConfig\x27 object has no attribute \x27OPENAI_MODEL\x27" :=
    fun outs => run_full_evaluation_always_fails failingInputC8 outs
      (by decide) (by decide)
  refine ⟨h, fun outs v hv => ?_⟩
  rw [h outs] at hv
  exact EvalOutput.noConfusion hv

end Minimalagent
